import Mathlib

/-!
# DoGood volunteer marketplace — verification of the access/side-effect contracts

Shallow embedding of the data-relevant behaviour of the DoGood React client
(`src/dogood/src/pages/*.tsx`, `src/unnamed/part_000`).  The external Supabase
store is modelled as an explicit `Store` value; each remote call that can fail
is given a Boolean flag carrying the store's response, exactly where the source
awaits a call.  Page handlers become pure functions from the page's props and
the store to an outcome and an updated store.

Display-only columns (free-text description, schedule, location, contact
fields, timestamps) are never read by any of the handlers below except to be
copied verbatim; the record types keep a representative subset (`title`,
`causeCategory`) and the numeric/status columns every claim mentions.
-/

/-- `profiles.user_type` (`user_type TEXT CHECK (user_type IN ('student','organization'))`). -/
inductive UserType
  | student
  | organization
  deriving DecidableEq, Repr

/-- `opportunities.status` (`CHECK (status IN ('active','inactive','completed'))`). -/
inductive OppStatus
  | active
  | inactive
  | completed
  deriving DecidableEq, Repr

/-- `volunteer_registrations.status` (`CHECK (status IN ('registered','completed','cancelled'))`). -/
inductive RegStatus
  | registered
  | completed
  | cancelled
  deriving DecidableEq, Repr

/-- A row of the `profiles` table (README schema in `src/unnamed/part_000`). -/
structure Profile where
  id : Nat
  userType : UserType
  verified : Bool
  fullName : String
  organizationName : String
  serviceHoursGoal : Int
  totalHoursLogged : Int
  address : String
  city : String
  state : String
  zipCode : String
  phone : String
  deriving DecidableEq, Repr

/-- A row of the `opportunities` table. -/
structure Opportunity where
  id : Nat
  organizationId : Nat
  title : String
  causeCategory : String
  hoursNeeded : Int
  maxVolunteers : Int
  currentVolunteers : Int
  status : OppStatus
  deriving DecidableEq, Repr

/-- A row of the `volunteer_registrations` table.  `hoursCompleted` is
`Option Int`: the client's `RegisteredOpportunity.hours_completed?: number`
may be absent, and the code reads it through `|| 0` (here `Option.getD 0`).
A freshly inserted row carries `none`: the insert payload in
`registerForOpportunity` does not mention `hours_completed`. -/
structure Registration where
  id : Nat
  userId : Nat
  opportunityId : Nat
  status : RegStatus
  hoursCompleted : Option Int
  deriving DecidableEq, Repr

/-- The external persistent store: the three tables the claims touch. -/
structure Store where
  opportunities : List Opportunity
  registrations : List Registration
  profiles : List Profile
  deriving DecidableEq, Repr

/-- Sum of `hours_completed` over one student's registrations, reading the
optional column through `|| 0` as every consumer in the source does. -/
def sumHoursForUser (regs : List Registration) (uid : Nat) : Int :=
  ((regs.filter (fun r => r.userId == uid)).map (fun r => r.hoursCompleted.getD 0)).sum

/-! ## OpportunityDetail.tsx — `registerForOpportunity` and the action card -/

/-- Observable outcome of `registerForOpportunity` (OpportunityDetail.tsx,
lines 174-215): redirect to `/login`, the students-only alert, the catch-all
failure alert, or completion of the handler. -/
inductive RegisterOutcome
  | redirectLogin
  | notStudent
  | failed
  | registeredOk
  deriving DecidableEq, Repr

/-- `registerForOpportunity` (OpportunityDetail.tsx lines 174-215).

* `localOpp` is the page's `opportunity` React state (the copy fetched by
  `fetchOpportunity`); the handler is reachable only when it is non-null.
* `insertOk` is the store's response to the `volunteer_registrations` insert;
  its error is checked (`if (error) throw`) and the `catch` block performs no
  store writes.
* `updateOk` is the store's response to the *separate* follow-up
  `opportunities` update; the source never inspects this call's error, so a
  failure there is silent and everything already done stays done.
* The follow-up update writes `(opportunity?.current_volunteers || 0) + 1`,
  i.e. one more than the *local copy's* count, to the row with the page's id. -/
def registerForOpportunity (user : Option Nat) (userProfile : Option Profile)
    (localOpp : Opportunity) (store : Store) (insertOk updateOk : Bool)
    (newRegId : Nat) : RegisterOutcome × Store :=
  match user with
  | none => (RegisterOutcome.redirectLogin, store)
  | some uid =>
    if userProfile.map (fun p => p.userType) ≠ some UserType.student then
      (RegisterOutcome.notStudent, store)
    else if insertOk = false then
      (RegisterOutcome.failed, store)
    else
      let store1 : Store :=
        { store with
            registrations :=
              { id := newRegId, userId := uid, opportunityId := localOpp.id,
                status := RegStatus.registered, hoursCompleted := none }
                :: store.registrations }
      let newCount : Int := localOpp.currentVolunteers + 1
      let store2 : Store :=
        if updateOk then
          { store1 with
              opportunities := store1.opportunities.map (fun o =>
                if o.id = localOpp.id then { o with currentVolunteers := newCount } else o) }
        else store1
      (RegisterOutcome.registeredOk, store2)

/-- `checkUserStatus` (OpportunityDetail.tsx lines 117-143): `isRegistered`
is set exactly when the store holds a `volunteer_registrations` row for
`(user.id, opportunity_id)`. -/
def checkRegistered (store : Store) (uid oppId : Nat) : Bool :=
  store.registrations.any (fun r => r.userId == uid && r.opportunityId == oppId)

/-- Outcome of pressing (or being unable to press) the register control of the
action card (OpportunityDetail.tsx lines 394-441). -/
inductive PageRegisterOutcome
  | alreadyRegistered
  | buttonDisabled
  | redirectLogin
  | notStudent
  | failed
  | success
  deriving DecidableEq, Repr

/-- The Create-Registration entry point as the page exposes it
(OpportunityDetail.tsx lines 394-441 plus the handler):

* when `isRegistered` (from `checkUserStatus`) the card shows the
  "You're registered!" notice and no register button exists;
* otherwise the button is rendered with
  `disabled={opportunity.current_volunteers >= opportunity.max_volunteers}`;
* an enabled click runs `registerForOpportunity`. -/
def pageRegister (user : Option Nat) (userProfile : Option Profile)
    (localOpp : Opportunity) (store : Store) (insertOk updateOk : Bool)
    (newRegId : Nat) : PageRegisterOutcome × Store :=
  let isRegistered : Bool :=
    match user with
    | none => false
    | some uid => checkRegistered store uid localOpp.id
  if isRegistered then (PageRegisterOutcome.alreadyRegistered, store)
  else if localOpp.maxVolunteers ≤ localOpp.currentVolunteers then
    (PageRegisterOutcome.buttonDisabled, store)
  else
    match registerForOpportunity user userProfile localOpp store insertOk updateOk newRegId with
    | (RegisterOutcome.redirectLogin, s) => (PageRegisterOutcome.redirectLogin, s)
    | (RegisterOutcome.notStudent, s) => (PageRegisterOutcome.notStudent, s)
    | (RegisterOutcome.failed, s) => (PageRegisterOutcome.failed, s)
    | (RegisterOutcome.registeredOk, s) => (PageRegisterOutcome.success, s)

/-- Sample student profile used by concrete witnesses below. -/
def sampleStudent : Profile :=
  { id := 1, userType := UserType.student, verified := false, fullName := "Ada",
    organizationName := "", serviceHoursGoal := 100, totalHoursLogged := 0,
    address := "", city := "", state := "TX", zipCode := "", phone := "" }

/-- Sample active opportunity with one slot left, used by concrete witnesses. -/
def sampleOppActive : Opportunity :=
  { id := 10, organizationId := 2, title := "Food Drive", causeCategory := "Other",
    hoursNeeded := 5, maxVolunteers := 3, currentVolunteers := 0,
    status := OppStatus.active }

/-- Sample store holding just `sampleOppActive`. -/
def sampleStore : Store :=
  { opportunities := [sampleOppActive], registrations := [], profiles := [] }

/-! ## MyOpportunities.tsx — `updateHoursCompleted` and the Log Hours control -/

/-- The `MyOpportunities` page's own React state: the signed-in student's
profile id (`userProfile.id`) and the `registeredOpportunities` list fetched
by `fetchUserOpportunities` (the student's `volunteer_registrations` rows). -/
structure MyOppsPage where
  userProfileId : Nat
  registeredOpportunities : List Registration
  deriving DecidableEq, Repr

/-- The row transform both store and local state receive in
`updateHoursCompleted`: `hours_completed: hours,
status: hours > 0 ? 'completed' : 'registered'` on the row whose id matches. -/
def hoursRowUpdate (registrationId : Nat) (hours : Int) (r : Registration) : Registration :=
  if r.id = registrationId then
    { r with hoursCompleted := some hours,
             status := if 0 < hours then RegStatus.completed else RegStatus.registered }
  else r

/-- `updateHoursCompleted` (MyOpportunities.tsx lines 145-183).

* `regUpdateOk` is the store's response to the `volunteer_registrations`
  update; its error is checked (`if (error) throw`) and the `catch` block
  performs no writes.
* On success the local list is mapped with the same transform, and then
  `totalHours` is computed as
  `registeredOpportunities.reduce((sum, item) => sum + (item.hours_completed || 0), 0) + hours`
  — NOTE: over the closure's *pre-update* `registeredOpportunities` list, so
  the updated registration contributes its old value *and* `hours` is added.
* `profUpdateOk` is the store's response to the `profiles` update writing
  `total_hours_logged`; the source never inspects this call's error. -/
def updateHoursCompleted (page : MyOppsPage) (store : Store)
    (registrationId : Nat) (hours : Int) (regUpdateOk profUpdateOk : Bool) :
    MyOppsPage × Store :=
  if regUpdateOk = false then (page, store)
  else
    let store1 : Store :=
      { store with
          registrations := store.registrations.map (hoursRowUpdate registrationId hours) }
    let page1 : MyOppsPage :=
      { page with
          registeredOpportunities :=
            page.registeredOpportunities.map (hoursRowUpdate registrationId hours) }
    let totalHours : Int :=
      (page.registeredOpportunities.map (fun r => r.hoursCompleted.getD 0)).sum + hours
    let store2 : Store :=
      if profUpdateOk then
        { store1 with
            profiles := store1.profiles.map (fun p =>
              if p.id = page.userProfileId then { p with totalHoursLogged := totalHours }
              else p) }
      else store1
    (page1, store2)

/-- `parseInt(hoursInput) || 0` in the Save button's click handler
(MyOpportunities.tsx line 450): a string that does not parse to a number
(`parseInt` yields `NaN`) is coerced to `0`; a parsed `0` stays `0`; any other
parsed integer — negative or arbitrarily large — passes through unchanged. -/
def parseIntOr0 : Option Int → Int
  | none => 0
  | some n => n

/-- The Save button of the Log Hours editor (MyOpportunities.tsx lines
436-453): `updateHoursCompleted(registration.id, parseInt(hoursInput) || 0)`.
The `<input type="number" min="0" max={...}>` attributes are advisory only;
no code path validates the value before the handler runs. -/
def saveHoursClick (page : MyOppsPage) (store : Store) (registrationId : Nat)
    (hoursInput : Option Int) (regUpdateOk profUpdateOk : Bool) :
    MyOppsPage × Store :=
  updateHoursCompleted page store registrationId (parseIntOr0 hoursInput)
    regUpdateOk profUpdateOk

/-! ## ForOrganizations.tsx — `handleSubmit` and `handleDelete` -/

/-- The dashboard form's `formData` (ForOrganizations.tsx lines 40-52);
free-text columns that no claim reads are represented by `title` and
`causeCategory`. -/
structure OppForm where
  title : String
  causeCategory : String
  hoursNeeded : Int
  maxVolunteers : Int
  deriving DecidableEq, Repr

/-- Observable outcome of `handleSubmit` (ForOrganizations.tsx lines 94-154):
the organizations-only alert, the must-be-verified alert, the catch-all
failure alert, or the successful save. -/
inductive SubmitOutcome
  | onlyOrganizations
  | notVerified
  | storeFailed
  | saved
  deriving DecidableEq, Repr

/-- The row content `handleSubmit` sends for both insert and update
(ForOrganizations.tsx lines 108-114): the form fields spread together with
`organization_id: user.id`, `status: 'active'`, `current_volunteers: 0`.
The payload carries no id column; `rowId` is the row's existing id (update)
or the store-generated id (insert). -/
def opportunityData (uid : Nat) (formData : OppForm) (rowId : Nat) : Opportunity :=
  { id := rowId, organizationId := uid, title := formData.title,
    causeCategory := formData.causeCategory, hoursNeeded := formData.hoursNeeded,
    maxVolunteers := formData.maxVolunteers, currentVolunteers := 0,
    status := OppStatus.active }

/-- `handleSubmit` (ForOrganizations.tsx lines 94-154).

* Guard 1: `if (!user || userProfile?.user_type !== 'organization')` — alert
  and return.
* Guard 2: `if (!userProfile?.verified)` — alert and return.  This guard is
  *not* conditioned on `editingOpportunity`: it runs for updates exactly as
  for creates.
* Then the same `opportunityData` payload is sent as an update on
  `editingOpportunity.id` or as an insert; `storeOk` is the store's response
  and an error lands in the catch-all alert with no store change. -/
def handleSubmit (user : Option Nat) (userProfile : Option Profile)
    (editingOpportunity : Option Nat) (formData : OppForm) (store : Store)
    (storeOk : Bool) (newOppId : Nat) : SubmitOutcome × Store :=
  match user with
  | none => (SubmitOutcome.onlyOrganizations, store)
  | some uid =>
    if userProfile.map (fun p => p.userType) ≠ some UserType.organization then
      (SubmitOutcome.onlyOrganizations, store)
    else if userProfile.map (fun p => p.verified) ≠ some true then
      (SubmitOutcome.notVerified, store)
    else if storeOk = false then
      (SubmitOutcome.storeFailed, store)
    else
      match editingOpportunity with
      | some editId =>
        (SubmitOutcome.saved,
         { store with
             opportunities := store.opportunities.map (fun o =>
               if o.id = editId then opportunityData uid formData o.id else o) })
      | none =>
        (SubmitOutcome.saved,
         { store with
             opportunities := opportunityData uid formData newOppId :: store.opportunities })

/-- Observable outcome of `handleDelete` (ForOrganizations.tsx lines 174-192),
plus `unavailable` for the page states in which no delete button is rendered
(the dashboard and its buttons exist only when `user` is present and
`userProfile?.user_type === 'organization'`, lines 247-323). -/
inductive DeleteOutcome
  | unavailable
  | declined
  | deleteFailed
  | deleted
  deriving DecidableEq, Repr

/-- `handleDelete` (ForOrganizations.tsx lines 174-192) behind the dashboard
gate: a `confirm()` dialog, then an unconditional delete of the
`opportunities` row by id.  No verification check appears anywhere on this
path.  (The delete button is rendered only next to rows of
`fetchOrganizationOpportunities`, i.e. rows with
`organization_id = user.id`.) -/
def dashboardDelete (user : Option Nat) (userProfile : Option Profile)
    (confirmed : Bool) (opportunityId : Nat) (store : Store) (storeOk : Bool) :
    DeleteOutcome × Store :=
  match user with
  | none => (DeleteOutcome.unavailable, store)
  | some _ =>
    if userProfile.map (fun p => p.userType) ≠ some UserType.organization then
      (DeleteOutcome.unavailable, store)
    else if confirmed = false then
      (DeleteOutcome.declined, store)
    else if storeOk = false then
      (DeleteOutcome.deleteFailed, store)
    else
      (DeleteOutcome.deleted,
       { store with
           opportunities := store.opportunities.filter (fun o => o.id != opportunityId) })

/-! ## Profile.tsx — `handleSubmit`, and account creation -/

/-- A single named field of the duck-typed `updates` object that
`Profile.tsx handleSubmit` assembles and hands to `updateProfile`.  The
constructors list every `profiles` column a client update could name,
including `verified`, so that "the field set never contains `verified`" is a
statement about this type rather than true by construction. -/
inductive ProfileField
  | fullName (v : String)
  | serviceHoursGoal (v : Int)
  | organizationName (v : String)
  | address (v : String)
  | city (v : String)
  | state (v : String)
  | zipCode (v : String)
  | phone (v : String)
  | verified (v : Bool)
  deriving DecidableEq, Repr

/-- The profile edit form's `formData` (Profile.tsx lines 26-35). -/
structure ProfileForm where
  fullName : String
  serviceHoursGoal : Int
  organizationName : String
  address : String
  city : String
  state : String
  zipCode : String
  phone : String
  deriving DecidableEq, Repr

/-- The `updates` field set built by `Profile.tsx handleSubmit`
(lines 60-94): for a student, `full_name` and `service_hours_goal`; for an
organization, `full_name`, `organization_name`, `address`, `city`, `state`,
`zip_code`, `phone`; otherwise empty.  `verified` is never added. -/
def profileSubmitUpdates (userType : Option UserType) (formData : ProfileForm) :
    List ProfileField :=
  match userType with
  | some UserType.student =>
    [ProfileField.fullName formData.fullName,
     ProfileField.serviceHoursGoal formData.serviceHoursGoal]
  | some UserType.organization =>
    [ProfileField.fullName formData.fullName,
     ProfileField.organizationName formData.organizationName,
     ProfileField.address formData.address,
     ProfileField.city formData.city,
     ProfileField.state formData.state,
     ProfileField.zipCode formData.zipCode,
     ProfileField.phone formData.phone]
  | none => []

/-- Store semantics of writing one named field onto a `profiles` row. -/
def applyProfileField (p : Profile) : ProfileField → Profile
  | ProfileField.fullName v => { p with fullName := v }
  | ProfileField.serviceHoursGoal v => { p with serviceHoursGoal := v }
  | ProfileField.organizationName v => { p with organizationName := v }
  | ProfileField.address v => { p with address := v }
  | ProfileField.city v => { p with city := v }
  | ProfileField.state v => { p with state := v }
  | ProfileField.zipCode v => { p with zipCode := v }
  | ProfileField.phone v => { p with phone := v }
  | ProfileField.verified v => { p with verified := v }

/-- Modelled from the spec: `updateProfile` lives in
`contexts/AuthContext.tsx`, which is not under `src/`; per §6 the store's
`update(entityType, id, fields)` applies exactly the named fields it is
given, so a profile update writes the listed fields onto the row and nothing
else. -/
def applyProfileUpdates (p : Profile) (fs : List ProfileField) : Profile :=
  fs.foldl applyProfileField p

/-- Modelled from the spec: the student registration component
(`components/auth/Register.tsx`) is not under `src/`.  Per §3 a freshly
created student Account has `verified` false (`verified BOOLEAN DEFAULT
FALSE` in the schema of `src/unnamed/part_000`, and `verified` is "never true
for students"), `serviceHoursGoal` defaulting to 100 and no hours logged. -/
def studentSignUpProfile (id : Nat) (fullName : String) : Profile :=
  { id := id, userType := UserType.student, verified := false, fullName := fullName,
    organizationName := "", serviceHoursGoal := 100, totalHoursLogged := 0,
    address := "", city := "", state := "", zipCode := "", phone := "" }

/-- `OrganizationRegister.handleSubmit` (src/unnamed/part_000 lines 53-63):
the `userData` passed to `signUp` sets `user_type: 'organization'` and
`verified: false` ("Organizations start unverified"). -/
def organizationSignUpProfile (id : Nat) (contactPerson orgName addr phone : String) :
    Profile :=
  { id := id, userType := UserType.organization, verified := false,
    fullName := contactPerson, organizationName := orgName, serviceHoursGoal := 100,
    totalHoursLogged := 0, address := addr, city := "", state := "", zipCode := "",
    phone := phone }

/-- Sample *inactive* opportunity with free capacity (reachable by direct
link: `fetchOpportunity` selects by id with no status filter). -/
def sampleOppInactive : Opportunity :=
  { id := 11, organizationId := 2, title := "Archive Sort", causeCategory := "Other",
    hoursNeeded := 4, maxVolunteers := 3, currentVolunteers := 0,
    status := OppStatus.inactive }

/-- Store holding only the inactive opportunity and no registrations. -/
def storeInactive : Store :=
  { opportunities := [sampleOppInactive], registrations := [], profiles := [] }

/-- The signed-in student's single registration, freshly created (the insert
payload carries no `hours_completed`). -/
def regFresh : Registration :=
  { id := 1, userId := 1, opportunityId := 10, status := RegStatus.registered,
    hoursCompleted := none }

/-- The `MyOpportunities` page state for `sampleStudent` after
`fetchUserOpportunities`. -/
def pageMyOpps : MyOppsPage :=
  { userProfileId := 1, registeredOpportunities := [regFresh] }

/-- Store matching `pageMyOpps`: the registration row, its opportunity
(`hoursNeeded = 5`) and the student's profile (`totalHoursLogged = 0`). -/
def storeMyOpps : Store :=
  { opportunities := [sampleOppActive], registrations := [regFresh],
    profiles := [sampleStudent] }

/-- First hours entry of the C1 scenario: the student types `-3` (accepted —
no range check exists, see C8; `-3 > 0` is false so status stays
`registered` and the row remains editable). -/
def c1AfterFirstSave : MyOppsPage × Store :=
  saveHoursClick pageMyOpps storeMyOpps 1 (some (-3)) true true

/-- Second hours entry of the C1 scenario: the student then types `5`. -/
def c1AfterSecondSave : MyOppsPage × Store :=
  saveHoursClick c1AfterFirstSave.1 c1AfterFirstSave.2 1 (some 5) true true

/-- Sample organization profile fresh from `OrganizationRegister.handleSubmit`
(unverified). -/
def sampleOrgUnverified : Profile :=
  organizationSignUpProfile 2 "Grace" "Helpers of Dallas" "12 Main St" "555-0100"

/-- The same organization after the external verifier flips `verified`. -/
def sampleOrgVerified : Profile :=
  { sampleOrgUnverified with verified := true }

/-- A dashboard form submission used by concrete witnesses. -/
def sampleForm : OppForm :=
  { title := "Park Cleanup", causeCategory := "Environment", hoursNeeded := 3,
    maxVolunteers := 10 }

/-- An opportunity owned by the sample organization, currently inactive and
with four volunteers counted. -/
def sampleOppOwned : Opportunity :=
  { id := 20, organizationId := 2, title := "Park Cleanup",
    causeCategory := "Environment", hoursNeeded := 3, maxVolunteers := 10,
    currentVolunteers := 4, status := OppStatus.inactive }

/-- Store for the organization-dashboard scenarios. -/
def storeOrg : Store :=
  { opportunities := [sampleOppOwned], registrations := [],
    profiles := [sampleOrgUnverified] }

/-- A profile edit form submission used by concrete witnesses. -/
def sampleProfileForm : ProfileForm :=
  { fullName := "Ada L.", serviceHoursGoal := 120, organizationName := "",
    address := "", city := "", state := "TX", zipCode := "", phone := "" }

/-- The page's stale copy of opportunity 30: fetched while the row still read
7 of 10 volunteers. -/
def staleOppCopy : Opportunity :=
  { id := 30, organizationId := 2, title := "Coat Drive", causeCategory := "Other",
    hoursNeeded := 2, maxVolunteers := 10, currentVolunteers := 7,
    status := OppStatus.active }

/-- The store's current row 30: the owner's dashboard edit lowered the cap to
5 (and reset the count, see C10) and five registrations then filled it — the
row is full and satisfies the bounds. -/
def storeOppLowered : Opportunity :=
  { id := 30, organizationId := 2, title := "Coat Drive", causeCategory := "Other",
    hoursNeeded := 2, maxVolunteers := 5, currentVolunteers := 5,
    status := OppStatus.active }

/-- Store for the stale-copy registration scenario. -/
def storeStale : Store :=
  { opportunities := [storeOppLowered], registrations := [],
    profiles := [sampleStudent] }

/-! ## Theorems -/

/-- The `opportunities` table after `registerForOpportunity`: either untouched,
or mapped so that the target row holds one more than the local copy's count. -/
lemma registerForOpportunity_opportunities (u : Option Nat) (p : Option Profile)
    (opp : Opportunity) (store : Store) (iOk uOk : Bool) (rid : Nat) :
    (registerForOpportunity u p opp store iOk uOk rid).2.opportunities =
      store.opportunities ∨
    (registerForOpportunity u p opp store iOk uOk rid).2.opportunities =
      store.opportunities.map (fun o =>
        if o.id = opp.id then { o with currentVolunteers := opp.currentVolunteers + 1 }
        else o) := by
  cases u with
  | none => exact Or.inl rfl
  | some uid =>
    by_cases h1 : p.map (fun q => q.userType) ≠ some UserType.student
    · simp [registerForOpportunity, h1]
    · cases iOk with
      | false => simp [registerForOpportunity, h1]
      | true =>
        cases uOk with
        | false => simp [registerForOpportunity, h1]
        | true => simp [registerForOpportunity, h1]

/-- The `opportunities` table after a register click: either untouched, or the
capacity guard passed and the target row holds the local count plus one. -/
lemma pageRegister_opportunities (u : Option Nat) (p : Option Profile)
    (opp : Opportunity) (store : Store) (iOk uOk : Bool) (rid : Nat) :
    (pageRegister u p opp store iOk uOk rid).2.opportunities =
      store.opportunities ∨
    (opp.currentVolunteers < opp.maxVolunteers ∧
      (pageRegister u p opp store iOk uOk rid).2.opportunities =
        store.opportunities.map (fun o =>
          if o.id = opp.id then { o with currentVolunteers := opp.currentVolunteers + 1 }
          else o)) := by
  by_cases hfull : opp.maxVolunteers ≤ opp.currentVolunteers
  · cases u with
    | none => simp [pageRegister, hfull]
    | some uid =>
      cases hreg : checkRegistered store uid opp.id with
      | true => simp [pageRegister, hreg]
      | false => simp [pageRegister, hreg, hfull]
  · have hlt : opp.currentVolunteers < opp.maxVolunteers := lt_of_not_le hfull
    cases u with
    | none => left; simp [pageRegister, registerForOpportunity, hfull]
    | some uid =>
      cases hreg : checkRegistered store uid opp.id with
      | true => left; simp [pageRegister, hreg]
      | false =>
        have h2 : (pageRegister (some uid) p opp store iOk uOk rid).2 =
            (registerForOpportunity (some uid) p opp store iOk uOk rid).2 := by
          rcases hout : registerForOpportunity (some uid) p opp store iOk uOk rid
            with ⟨out, s⟩
          cases out <;> simp [pageRegister, hreg, hfull, hout]
        rw [h2]
        rcases registerForOpportunity_opportunities (some uid) p opp store iOk uOk rid
          with h | h
        · exact Or.inl h
        · exact Or.inr ⟨hlt, h⟩

/-- C3 counterexample: the capacity guard is the render-time `disabled`
check on the *page's copy*, and the write stores `local copy + 1`
unconditionally.  Against a store row that is full (5 of 5, bounds satisfied
beforehand) but a page copy that is stale (7 of 10, fetched before the
owner's edit lowered the cap), the register click succeeds and stores
`currentVolunteers = 8 > maxVolunteers = 5` — refuting the claim that the
bound holds after every Create-Registration call and that a full opportunity
is never pushed past its maximum. -/
theorem c3_counterexample_stale_copy_exceeds_max :
    (storeStale.opportunities.map (fun o => (o.currentVolunteers, o.maxVolunteers)))
      = [(5, 5)] ∧
    (pageRegister (some 1) (some sampleStudent) staleOppCopy storeStale
        true true 80).1 = PageRegisterOutcome.success ∧
    ((pageRegister (some 1) (some sampleStudent) staleOppCopy storeStale
        true true 80).2.opportunities.map
          (fun o => (o.currentVolunteers, o.maxVolunteers))) = [(8, 5)] ∧
    ¬((8 : Int) ≤ 5) := by
  decide

/-- C3 (amended): `0 ≤ currentVolunteers ≤ maxVolunteers` is preserved by
every Create-Registration call issued through the `OpportunityDetail` page
*whose page copy agrees with the store on the target row*: when every row
satisfies the bounds beforehand, every row still satisfies them afterwards —
in particular, against a full opportunity
(`currentVolunteers = maxVolunteers`) the register button is disabled and the
count is never pushed past `maxVolunteers`.  When the copy is stale the
unconditional `local copy + 1` write can exceed `maxVolunteers` (see the
counterexample above) — the read-then-increment hazard of spec §5. -/
theorem c3_capacity_invariant (u : Option Nat) (p : Option Profile)
    (opp : Opportunity) (store : Store) (iOk uOk : Bool) (rid : Nat)
    (hsync : ∀ o ∈ store.opportunities, o.id = opp.id →
      o.currentVolunteers = opp.currentVolunteers ∧ o.maxVolunteers = opp.maxVolunteers)
    (hinv : ∀ o ∈ store.opportunities,
      0 ≤ o.currentVolunteers ∧ o.currentVolunteers ≤ o.maxVolunteers) :
    ∀ o ∈ (pageRegister u p opp store iOk uOk rid).2.opportunities,
      0 ≤ o.currentVolunteers ∧ o.currentVolunteers ≤ o.maxVolunteers := by
  intro o ho
  rcases pageRegister_opportunities u p opp store iOk uOk rid with h | ⟨hlt, h⟩
  · rw [h] at ho
    exact hinv o ho
  · rw [h] at ho
    rcases List.mem_map.mp ho with ⟨o0, ho0, rfl⟩
    by_cases hid : o0.id = opp.id
    · obtain ⟨hcv, hmax⟩ := hsync o0 ho0 hid
      obtain ⟨h0, hle⟩ := hinv o0 ho0
      rw [if_pos hid]
      refine ⟨?_, ?_⟩
      · show (0 : Int) ≤ opp.currentVolunteers + 1
        omega
      · show opp.currentVolunteers + 1 ≤ o0.maxVolunteers
        omega
    · rw [if_neg hid]
      exact hinv o0 ho0

/-- C3 witness: a concrete student registering at a one-slot-free opportunity;
the resulting row (count bumped to 1) still satisfies the bounds. -/
theorem c3_capacity_invariant_witness :
    0 ≤ ({ sampleOppActive with currentVolunteers := 1 } : Opportunity).currentVolunteers ∧
      ({ sampleOppActive with currentVolunteers := 1 } : Opportunity).currentVolunteers ≤
        ({ sampleOppActive with currentVolunteers := 1 } : Opportunity).maxVolunteers :=
  c3_capacity_invariant (some 1) (some sampleStudent) sampleOppActive sampleStore
    true true 77 (by decide) (by decide)
    { sampleOppActive with currentVolunteers := 1 } (by decide)

/-- C2 counterexample: with the registration insert succeeding and the
follow-up `current_volunteers` update failing (its error is never inspected
by the source), the handler reports success, the Registration set has grown,
and `currentVolunteers` is unchanged — partial state remains and the count
did not become "before plus exactly 1", refuting the one-logical-unit /
no-partial-state claim at this concrete input. -/
theorem c2_counterexample :
    (registerForOpportunity (some 1) (some sampleStudent) sampleOppActive sampleStore
        true false 77).1 = RegisterOutcome.registeredOk ∧
    ((registerForOpportunity (some 1) (some sampleStudent) sampleOppActive sampleStore
        true false 77).2.registrations.map (fun r => (r.userId, r.opportunityId)))
      = [(1, 10)] ∧
    sampleStore.registrations = [] ∧
    ((registerForOpportunity (some 1) (some sampleStudent) sampleOppActive sampleStore
        true false 77).2.opportunities.map (fun o => o.currentVolunteers)) = [0] ∧
    sampleOppActive.currentVolunteers = 0 := by
  decide

/-- C2 (amended): Create Registration issues two separate store calls.  If
the insert fails nothing changes; if the insert succeeds and the follow-up
update succeeds, the registration is prepended and the target row is set to
the local copy's count plus 1 (an increment by exactly 1 whenever the local
copy agrees with the store); if the insert succeeds but the follow-up update
fails, the registration remains while the count is untouched — the two
effects are not applied as one logical unit. -/
theorem c2_amended_register_effects (uid : Nat) (p : Profile) (opp : Opportunity)
    (store : Store) (uOk : Bool) (rid : Nat)
    (hstudent : p.userType = UserType.student) :
    (registerForOpportunity (some uid) (some p) opp store false uOk rid =
      (RegisterOutcome.failed, store)) ∧
    ((registerForOpportunity (some uid) (some p) opp store true false rid).2 =
      { store with
          registrations :=
            { id := rid, userId := uid, opportunityId := opp.id,
              status := RegStatus.registered, hoursCompleted := none }
              :: store.registrations }) ∧
    ((registerForOpportunity (some uid) (some p) opp store true true rid).2 =
      { store with
          registrations :=
            { id := rid, userId := uid, opportunityId := opp.id,
              status := RegStatus.registered, hoursCompleted := none }
              :: store.registrations,
          opportunities := store.opportunities.map (fun o =>
            if o.id = opp.id then { o with currentVolunteers := opp.currentVolunteers + 1 }
            else o) }) := by
  refine ⟨?_, ?_, ?_⟩ <;> simp [registerForOpportunity, hstudent]

/-- C2 witness: the amended effect description instantiated at a concrete
student, opportunity and store. -/
theorem c2_amended_register_effects_witness :
    sampleStudent.userType = UserType.student ∧
    registerForOpportunity (some 1) (some sampleStudent) sampleOppActive sampleStore
        false true 77 = (RegisterOutcome.failed, sampleStore) :=
  ⟨rfl, (c2_amended_register_effects 1 sampleStudent sampleOppActive sampleStore
    true 77 rfl).1⟩

/-- C4 counterexample: a student's Create Registration against an Opportunity
whose status is `inactive` succeeds (the page never consults `status`), and
the registration row is stored — refuting "succeeds only when … the target's
status is active". -/
theorem c4_counterexample_inactive_success :
    (pageRegister (some 1) (some sampleStudent) sampleOppInactive storeInactive
        true true 78).1 = PageRegisterOutcome.success ∧
    sampleOppInactive.status = OppStatus.inactive ∧
    ((pageRegister (some 1) (some sampleStudent) sampleOppInactive storeInactive
        true true 78).2.registrations.map (fun r => (r.userId, r.opportunityId)))
      = [(1, 11)] := by
  decide

/-- C4 (amended): through the `OpportunityDetail` page, Create Registration
succeeds exactly when the actor is authenticated, not already registered for
the pair in the fetched state, of type student, the capacity check
`currentVolunteers < maxVolunteers` passes, and the store accepts the insert;
the opportunity's status is never consulted, and a repeat attempt for an
already-registered pair is stopped by the page (the button is replaced by the
registered notice) with no store call and no `DuplicateRegistration` error. -/
theorem c4_amended_register_preconditions (u : Option Nat) (p : Option Profile)
    (opp : Opportunity) (store : Store) (iOk uOk : Bool) (rid : Nat) :
    ((pageRegister u p opp store iOk uOk rid).1 = PageRegisterOutcome.success ↔
      (∃ uid, u = some uid ∧ checkRegistered store uid opp.id = false) ∧
      p.map (fun q => q.userType) = some UserType.student ∧
      opp.currentVolunteers < opp.maxVolunteers ∧ iOk = true) ∧
    (∀ uid, u = some uid → checkRegistered store uid opp.id = true →
      pageRegister u p opp store iOk uOk rid =
        (PageRegisterOutcome.alreadyRegistered, store)) := by
  constructor
  · cases u with
    | none =>
      by_cases hfull : opp.maxVolunteers ≤ opp.currentVolunteers
      · simp [pageRegister, hfull]
      · simp [pageRegister, registerForOpportunity, hfull]
    | some uid =>
      cases hreg : checkRegistered store uid opp.id with
      | true => simp [pageRegister, hreg]
      | false =>
        by_cases hfull : opp.maxVolunteers ≤ opp.currentVolunteers
        · simp [pageRegister, hreg, hfull, not_lt.mpr hfull]
        · by_cases hstu : p.map (fun q => q.userType) = some UserType.student
          · cases iOk with
            | true =>
              simp [pageRegister, registerForOpportunity, hreg, hfull, hstu,
                lt_of_not_le hfull]
            | false =>
              simp [pageRegister, registerForOpportunity, hreg, hfull, hstu]
          · cases iOk with
            | true => simp [pageRegister, registerForOpportunity, hreg, hfull, hstu]
            | false => simp [pageRegister, registerForOpportunity, hreg, hfull, hstu]
  · intro uid hu hreg
    subst hu
    simp [pageRegister, hreg]

/-- C4 witness: the duplicate-attempt branch at a store already holding the
pair's registration — the page answers with the registered notice and leaves
the store untouched. -/
theorem c4_amended_register_preconditions_witness :
    pageRegister (some 1) (some sampleStudent) sampleOppActive storeMyOpps
        true true 99 = (PageRegisterOutcome.alreadyRegistered, storeMyOpps) :=
  (c4_amended_register_preconditions (some 1) (some sampleStudent) sampleOppActive
    storeMyOpps true true 99).2 1 rfl (by decide)

/-- C1: after the two successful hours updates of the scenario, the stored
`total_hours_logged` is `(-3) + 5 = 2` while the sum of `hours_completed`
over the student's registrations is `5` — `totalHoursLogged` has drifted from
the sum because `updateHoursCompleted` adds the new hours to a sum that still
contains the updated registration's previous value. -/
theorem c1_totalHours_drift_eval :
    (c1AfterSecondSave.2.profiles.map (fun p => p.totalHoursLogged)) = [2] ∧
    sumHoursForUser c1AfterSecondSave.2.registrations 1 = 5 ∧
    ((2 : Int) ≠ 5) := by
  decide

/-- C5: a successful `updateHoursCompleted` (the registrations update
accepted by the store) leaves every row carrying the target id with
`hours_completed` equal to the new hours, and with status `completed` when
the hours are positive and `registered` when they are zero. -/
theorem c5_status_flip (page : MyOppsPage) (store : Store) (regId : Nat)
    (h : Int) (profOk : Bool) :
    ∀ r ∈ (updateHoursCompleted page store regId h true profOk).2.registrations,
      r.id = regId →
        r.hoursCompleted = some h ∧
        (0 < h → r.status = RegStatus.completed) ∧
        (h = 0 → r.status = RegStatus.registered) := by
  have hregs : (updateHoursCompleted page store regId h true profOk).2.registrations =
      store.registrations.map (hoursRowUpdate regId h) := by
    cases profOk <;> rfl
  rw [hregs]
  intro r hr hid
  rcases List.mem_map.mp hr with ⟨r0, hr0, rfl⟩
  unfold hoursRowUpdate at hid ⊢
  by_cases h0 : r0.id = regId
  · rw [if_pos h0]
    refine ⟨rfl, ?_, ?_⟩
    · intro hpos
      show (if 0 < h then RegStatus.completed else RegStatus.registered) = _
      rw [if_pos hpos]
    · intro hz
      show (if 0 < h then RegStatus.completed else RegStatus.registered) = _
      rw [if_neg (by omega)]
  · rw [if_neg h0] at hid
    exact absurd hid h0

/-- C5 witness: logging 5 hours on the fresh registration marks it
`completed` with `hours_completed = 5`. -/
theorem c5_status_flip_witness :
    ({ id := 1, userId := 1, opportunityId := 10, status := RegStatus.completed,
       hoursCompleted := some 5 } : Registration).hoursCompleted = some 5 ∧
    (0 < (5 : Int) →
      ({ id := 1, userId := 1, opportunityId := 10, status := RegStatus.completed,
         hoursCompleted := some 5 } : Registration).status = RegStatus.completed) ∧
    ((5 : Int) = 0 →
      ({ id := 1, userId := 1, opportunityId := 10, status := RegStatus.completed,
         hoursCompleted := some 5 } : Registration).status = RegStatus.registered) :=
  c5_status_flip pageMyOpps storeMyOpps 1 5 true
    { id := 1, userId := 1, opportunityId := 10, status := RegStatus.completed,
      hoursCompleted := some 5 } (by decide) rfl

/-- C8 counterexample: with `hours_needed = 5`, typing `999` into the hours
editor issues a store write of `hours_completed = 999` — nothing rejects the
out-of-range value before the remote call, refuting "rejected with
InvalidRange before any remote store call is issued". -/
theorem c8_counterexample_out_of_range_reaches_store :
    ((saveHoursClick pageMyOpps storeMyOpps 1 (some 999) true true).2.registrations.map
        (fun r => r.hoursCompleted)) = [some 999] ∧
    sampleOppActive.hoursNeeded = 5 ∧
    ¬((999 : Int) ≤ 5) ∧
    (saveHoursClick pageMyOpps storeMyOpps 1 (some 999) true true).2 ≠ storeMyOpps := by
  decide

/-- C8 (amended): the hours editor performs no range validation — whatever
integer the input parses to (negative or arbitrarily large) is written to the
store's row unchanged, and non-numeric input is coerced to `0` by
`parseInt(hoursInput) || 0` rather than rejected; no input makes any
operation throw (the handler is a total function of its inputs). -/
theorem c8_amended_no_range_validation (page : MyOppsPage) (store : Store)
    (regId : Nat) (input : Option Int) (profOk : Bool) :
    parseIntOr0 none = 0 ∧
    ∀ r ∈ (saveHoursClick page store regId input true profOk).2.registrations,
      r.id = regId → r.hoursCompleted = some (parseIntOr0 input) := by
  refine ⟨rfl, ?_⟩
  have hregs : (saveHoursClick page store regId input true profOk).2.registrations =
      store.registrations.map (hoursRowUpdate regId (parseIntOr0 input)) := by
    cases profOk <;> rfl
  rw [hregs]
  intro r hr hid
  rcases List.mem_map.mp hr with ⟨r0, hr0, rfl⟩
  unfold hoursRowUpdate at hid ⊢
  by_cases h0 : r0.id = regId
  · rw [if_pos h0]
  · rw [if_neg h0] at hid
    exact absurd hid h0

/-- C8 witness: non-numeric input (`parseInt` yields `NaN`) is coerced to 0
and that 0 is what the store receives for the target row. -/
theorem c8_amended_no_range_validation_witness :
    parseIntOr0 none = 0 ∧
    ({ id := 1, userId := 1, opportunityId := 10, status := RegStatus.registered,
       hoursCompleted := some 0 } : Registration).hoursCompleted =
      some (parseIntOr0 none) :=
  ⟨(c8_amended_no_range_validation pageMyOpps storeMyOpps 1 none true).1,
   (c8_amended_no_range_validation pageMyOpps storeMyOpps 1 none true).2
     { id := 1, userId := 1, opportunityId := 10, status := RegStatus.registered,
       hoursCompleted := some 0 } (by decide) rfl⟩

/-- C6: Create Opportunity through the dashboard is denied to
non-organizations; for an organization it is denied with the
verification-pending message exactly while `verified` is false, and once
`verified` is true (flipped externally — nothing in the client can write it,
see C9) the same call inserts a row whose `organization_id` is the actor's
own id, `current_volunteers = 0`, `status = active`. -/
theorem c6_create_opportunity_verification (uid : Nat) (p : Profile)
    (form : OppForm) (store : Store) (ok : Bool) (newId : Nat) :
    (p.userType ≠ UserType.organization →
      handleSubmit (some uid) (some p) none form store ok newId =
        (SubmitOutcome.onlyOrganizations, store)) ∧
    (p.userType = UserType.organization → p.verified = false →
      handleSubmit (some uid) (some p) none form store ok newId =
        (SubmitOutcome.notVerified, store)) ∧
    (p.userType = UserType.organization → p.verified = true → ok = true →
      handleSubmit (some uid) (some p) none form store ok newId =
        (SubmitOutcome.saved,
         { store with
             opportunities := opportunityData uid form newId :: store.opportunities })) ∧
    (opportunityData uid form newId).organizationId = uid := by
  refine ⟨?_, ?_, ?_, rfl⟩
  · intro h
    simp [handleSubmit, h]
  · intro h1 h2
    simp [handleSubmit, h1, h2]
  · intro h1 h2 h3
    subst h3
    simp [handleSubmit, h1, h2]

/-- C6 witness: the unverified organization is denied; after the external
flip the identical call succeeds and stores the new row. -/
theorem c6_create_opportunity_verification_witness :
    handleSubmit (some 2) (some sampleOrgUnverified) none sampleForm storeOrg true 55 =
      (SubmitOutcome.notVerified, storeOrg) ∧
    handleSubmit (some 2) (some sampleOrgVerified) none sampleForm storeOrg true 55 =
      (SubmitOutcome.saved,
       { storeOrg with
           opportunities := opportunityData 2 sampleForm 55 :: storeOrg.opportunities }) :=
  ⟨(c6_create_opportunity_verification 2 sampleOrgUnverified sampleForm storeOrg
      true 55).2.1 rfl rfl,
   (c6_create_opportunity_verification 2 sampleOrgVerified sampleForm storeOrg
      true 55).2.2.1 rfl rfl rfl⟩

/-- C7 counterexample: an organization that owns the target but whose
`verified` flag is false is blocked from updating it — `handleSubmit` runs
its verification guard on the edit path too, refuting "the actor's verified
flag is not re-checked … can still update … an opportunity it owns". -/
theorem c7_counterexample_update_blocked_for_unverified :
    sampleOrgUnverified.verified = false ∧
    sampleOppOwned.organizationId = sampleOrgUnverified.id ∧
    handleSubmit (some 2) (some sampleOrgUnverified) (some 20) sampleForm storeOrg
        true 99 = (SubmitOutcome.notVerified, storeOrg) := by
  decide

/-- C7 (amended): Delete indeed re-checks only the organization role (and the
dashboard offers delete only on the actor's own rows), so an organization
whose verification lapsed can still delete an opportunity it owns; but
Update goes through the dashboard form, whose verification guard also runs
for edits, so the same organization cannot update it. -/
theorem c7_amended_delete_without_verification (uid : Nat) (p : Profile)
    (editId : Nat) (form : OppForm) (oppId : Nat) (store : Store) (newId : Nat)
    (horg : p.userType = UserType.organization) :
    (dashboardDelete (some uid) (some p) true oppId store true =
      (DeleteOutcome.deleted,
       { store with
           opportunities := store.opportunities.filter (fun o => o.id != oppId) })) ∧
    (p.verified = false →
      handleSubmit (some uid) (some p) (some editId) form store true newId =
        (SubmitOutcome.notVerified, store)) := by
  constructor
  · simp [dashboardDelete, horg]
  · intro hv
    simp [handleSubmit, horg, hv]

/-- C7 witness: the lapsed (unverified) organization deletes its own
opportunity successfully. -/
theorem c7_amended_delete_without_verification_witness :
    dashboardDelete (some 2) (some sampleOrgUnverified) true 20 storeOrg true =
      (DeleteOutcome.deleted,
       { storeOrg with
           opportunities := storeOrg.opportunities.filter (fun o => o.id != 20) }) :=
  (c7_amended_delete_without_verification 2 sampleOrgUnverified 20 sampleForm 20
    storeOrg 99 rfl).1

/-- C10: every successful Update Opportunity through the dashboard form (a
verified organization editing, store accepting) stores the edited row with
`current_volunteers = 0` and `status = 'active'`, whatever those columns held
before: the update payload always carries `status: 'active',
current_volunteers: 0`. -/
theorem c10_edit_resets_count_and_status (uid : Nat) (p : Profile)
    (editId newId : Nat) (form : OppForm) (store : Store)
    (horg : p.userType = UserType.organization) (hver : p.verified = true) :
    (handleSubmit (some uid) (some p) (some editId) form store true newId).1 =
      SubmitOutcome.saved ∧
    ∀ o ∈ (handleSubmit (some uid) (some p) (some editId) form store true
        newId).2.opportunities,
      o.id = editId → o.currentVolunteers = 0 ∧ o.status = OppStatus.active := by
  have hres : handleSubmit (some uid) (some p) (some editId) form store true newId =
      (SubmitOutcome.saved,
       { store with
           opportunities := store.opportunities.map (fun o =>
             if o.id = editId then opportunityData uid form o.id else o) }) := by
    simp [handleSubmit, horg, hver]
  rw [hres]
  refine ⟨rfl, ?_⟩
  intro o ho hid
  rcases List.mem_map.mp ho with ⟨o0, ho0, rfl⟩
  by_cases h0 : o0.id = editId
  · rw [if_pos h0]
    exact ⟨rfl, rfl⟩
  · rw [if_neg h0] at hid
    exact absurd hid h0

/-- C10 witness: editing the inactive opportunity with four counted
volunteers stores it back with a zero count and active status. -/
theorem c10_edit_resets_count_and_status_witness :
    (handleSubmit (some 2) (some sampleOrgVerified) (some 20) sampleForm storeOrg
        true 99).1 = SubmitOutcome.saved ∧
    (opportunityData 2 sampleForm 20).currentVolunteers = 0 ∧
    (opportunityData 2 sampleForm 20).status = OppStatus.active :=
  ⟨(c10_edit_resets_count_and_status 2 sampleOrgVerified 20 99 sampleForm storeOrg
      rfl rfl).1,
   (c10_edit_resets_count_and_status 2 sampleOrgVerified 20 99 sampleForm storeOrg
      rfl rfl).2 (opportunityData 2 sampleForm 20) (by decide) rfl⟩

/-- A profile update built by `Profile.tsx handleSubmit` never changes the
`verified` column. -/
lemma applyProfileUpdates_verified (p : Profile) (ut : Option UserType)
    (form : ProfileForm) :
    (applyProfileUpdates p (profileSubmitUpdates ut form)).verified = p.verified := by
  cases ut with
  | none => rfl
  | some t => cases t <;> rfl

/-- Any sequence of `Profile.tsx handleSubmit` updates keeps an unverified
profile unverified. -/
lemma profileEdits_keep_unverified (edits : List (Option UserType × ProfileForm))
    (p : Profile) (hp : p.verified = false) :
    (edits.foldl (fun q e => applyProfileUpdates q (profileSubmitUpdates e.1 e.2))
      p).verified = false := by
  induction edits generalizing p with
  | nil => exact hp
  | cons e rest ih =>
    refine ih _ ?_
    rw [applyProfileUpdates_verified]
    exact hp

/-- C9: the field set `Profile.tsx handleSubmit` writes never contains the
`verified` field for any actor type or form input; hence applying a profile
update leaves `verified` unchanged, and a student account (created
unverified) stays unverified under every sequence of profile updates. -/
theorem c9_profile_update_never_writes_verified :
    (∀ (ut : Option UserType) (form : ProfileForm) (b : Bool),
      ProfileField.verified b ∉ profileSubmitUpdates ut form) ∧
    (∀ (p : Profile) (ut : Option UserType) (form : ProfileForm),
      (applyProfileUpdates p (profileSubmitUpdates ut form)).verified = p.verified) ∧
    (∀ (id : Nat) (name : String) (edits : List (Option UserType × ProfileForm)),
      (edits.foldl (fun q e => applyProfileUpdates q (profileSubmitUpdates e.1 e.2))
        (studentSignUpProfile id name)).verified = false) := by
  refine ⟨?_, applyProfileUpdates_verified, ?_⟩
  · intro ut form b
    cases ut with
    | none => simp [profileSubmitUpdates]
    | some t => cases t <;> simp [profileSubmitUpdates]
  · intro id name edits
    exact profileEdits_keep_unverified edits _ rfl

/-- C9 witness: a concrete student profile edit leaves `verified` as it was. -/
theorem c9_profile_update_never_writes_verified_witness :
    (applyProfileUpdates sampleStudent
      (profileSubmitUpdates (some UserType.student) sampleProfileForm)).verified =
      sampleStudent.verified :=
  c9_profile_update_never_writes_verified.2.1 sampleStudent (some UserType.student)
    sampleProfileForm
